import Mathlib

/-!
Shallow embedding of the `advbet/sentinel` Redis Sentinel client
(`sentinel.go`, current revision: `gomodule/redigo`-based, with
`validateConfig` and the `break` on success in `Client.do`).

Network effects are modelled by explicit environments:
* `Env` gives, for each sentinel address index, the outcome of
  `redis.Dial` and of `conn.Do` on a connection to that address;
* `DataEnv` gives the outcome of dialing a resolved data-node address
  and of the `ROLE` query on the resulting connection.

Within a single `do` call each sentinel address is contacted at most
once (the loop runs at most `len(addrs)` attempts and rotates on each
failure), so an outcome-per-address environment is faithful for a call.
Machine state (`conn`, `activeAddr`) is threaded explicitly; the mutex
of the Go code serializes calls, which the sequential state-passing
model reflects directly.
-/

namespace Sentinel

/-- Redis protocol reply values as surfaced by redigo's `Do`
(`nil`, bulk strings, integers, arrays). -/
inductive RValue where
  | nil
  | str (s : String)
  | int (n : Int)
  | arr (xs : List RValue)
deriving Repr

/-- Environment of one `Client.do` call: for each sentinel address index,
the result of `redis.Dial` (`none` = success, `some e` = dial error `e`)
and the result of `conn.Do` on a connection to that address. -/
structure Env where
  dial : Nat → Option String
  query : Nat → Except String RValue

/-- The `Client` struct of `sentinel.go`: a lazily-dialed connection
(recorded as the address index it was dialed to), the dial options,
the sentinel address list, and the active address index.
`conn : Option Nat` makes "at most one live connection" structural. -/
structure Client where
  conn : Option Nat
  options : List String
  addrs : List String
  activeAddr : Nat
deriving Repr, DecidableEq

/-- `NewClient`: fresh client, no connection, `activeAddr` zero-valued. -/
def NewClient (addrs : List String) (options : List String) : Client :=
  { conn := none, options := options, addrs := addrs, activeAddr := 0 }

/-- `Client.doOnce`: dial lazily if no connection, then run the command;
on a command error the connection is closed and cleared. -/
def doOnce (env : Env) (sc : Client) : Except String RValue × Client :=
  match sc.conn with
  | none =>
    match env.dial sc.activeAddr with
    | some e => (Except.error e, sc)
    | none =>
      match env.query sc.activeAddr with
      | Except.error e => (Except.error e, { sc with conn := none })
      | Except.ok v => (Except.ok v, { sc with conn := some sc.activeAddr })
  | some a =>
    match env.query a with
    | Except.error e => (Except.error e, { sc with conn := none })
    | Except.ok v => (Except.ok v, sc)

/-- The retry loop of `Client.do`, with the Go `for` loop's remaining
iteration count as fuel and the last `(reply, err)` pair threaded as in
the Go code.  The third component counts `doOnce` attempts issued. -/
def doAux (env : Env) : Nat → Client → Except String RValue →
    Except String RValue × Client × Nat
  | 0, sc, last => (last, sc, 0)
  | Nat.succ k, sc, _ =>
    match doOnce env sc with
    | (Except.error e, sc1) =>
      let sc2 := { sc1 with activeAddr := (sc1.activeAddr + 1) % sc1.addrs.length }
      let r := doAux env k sc2 (Except.error e)
      (r.1, r.2.1, r.2.2 + 1)
    | (Except.ok v, sc1) => (Except.ok v, sc1, 1)

/-- `Client.do`: up to `len(addrs)` attempts; initial `(reply, err)`
is `(nil, nil)`, i.e. a non-error `nil` reply. (`do` is a Lean keyword,
hence the name `doCmd`.) -/
def doCmd (env : Env) (sc : Client) : Except String RValue × Client × Nat :=
  doAux env sc.addrs.length sc (Except.ok RValue.nil)

/-- The client state at the start of attempt `j` (0-based) of a run of
the retry loop in which every attempt fails: attempt `0` starts from the
caller's state; every later attempt starts with the connection cleared
and the active index advanced `j` steps modulo the address count. -/
def failState (sc : Client) : Nat → Client
  | 0 => sc
  | j + 1 =>
    { sc with conn := none,
              activeAddr := (sc.activeAddr + (j + 1)) % sc.addrs.length }

/-- Element conversion inside `redis.Strings`: each array element must be
a (bulk) string. -/
def strsOf : List RValue → Except String (List String)
  | [] => Except.ok []
  | RValue.str s :: rest =>
    match strsOf rest with
    | Except.ok ss => Except.ok (s :: ss)
    | Except.error e => Except.error e
  | _ :: _ => Except.error "redigo: unexpected element type for Strings"

/-- redigo's `redis.Strings(reply, err)`. -/
def redisStrings : Except String RValue → Except String (List String)
  | Except.error e => Except.error e
  | Except.ok (RValue.arr xs) => strsOf xs
  | Except.ok RValue.nil => Except.error "redigo: nil returned"
  | Except.ok _ => Except.error "redigo: unexpected type for Strings"

/-- redigo's `redis.Values(reply, err)`. -/
def redisValues : Except String RValue → Except String (List RValue)
  | Except.error e => Except.error e
  | Except.ok (RValue.arr xs) => Except.ok xs
  | Except.ok RValue.nil => Except.error "redigo: nil returned"
  | Except.ok _ => Except.error "redigo: unexpected type for Values"

/-- redigo's `redis.String(reply, nil)` on a single reply element. -/
def redisString : RValue → Except String String
  | RValue.str s => Except.ok s
  | RValue.nil => Except.error "redigo: nil returned"
  | _ => Except.error "redigo: unexpected type for String"

/-- Go's `strings.Join(elems, sep)`. -/
def stringsJoin (elems : List String) (sep : String) : String :=
  match elems with
  | [] => ""
  | x :: xs => xs.foldl (fun b s => b ++ sep ++ s) x

/-- `Client.MasterAddress`: run the `SENTINEL get-master-addr-by-name`
query through the retry loop, decode the reply as strings, join with
`":"`, and return `(masterAddr, err)` together with the final client
state.  On a decode or query error `res` is the nil slice and the join
is `""`, exactly as in the Go code.  The `name` argument selects the
monitored set; `env` is the environment of this call's query. -/
def MasterAddress (env : Env) (sc : Client) (name : String) :
    (String × Option String) × Client :=
  let r := doCmd env sc
  let dec := redisStrings r.1
  let res := match dec with | Except.ok ss => ss | Except.error _ => []
  let errv : Option String :=
    match dec with | Except.ok _ => none | Except.error e => some e
  ((stringsJoin res ":", errv), r.2.1)

/-- `Client.Close`: close and clear the connection if present. -/
def close (sc : Client) : Client := { sc with conn := none }

/-- Result of running a Go function that may panic at runtime. -/
inductive GoResult (α : Type) where
  | ok (a : α)
  | panicked (msg : String)
deriving Repr, DecidableEq

/-- `TestRole`: decode the `ROLE` reply with `redis.Values`, take element
`res[0]` (a runtime panic when the decoded array is empty), decode it as
a string and compare with the expected role.  Returns `ok none` on a
matching role, `ok (some e)` on a returned error. -/
def TestRole (roleReply : Except String RValue) (expectedRole : String) :
    GoResult (Option String) :=
  match redisValues roleReply with
  | Except.error e => GoResult.ok (some e)
  | Except.ok [] => GoResult.panicked "runtime error: index out of range"
  | Except.ok (r0 :: _) =>
    match redisString r0 with
    | Except.error e => GoResult.ok (some e)
    | Except.ok role =>
      if role = expectedRole then GoResult.ok none
      else GoResult.ok (some "role check failed")

/-- `time.Duration` is an `int64` count of nanoseconds;
`d.Nanoseconds()` is its value. -/
abbrev Duration := Int

/-- One triple of connect/read/write timeouts. -/
structure Timeouts where
  connect : Duration
  read : Duration
  write : Duration
deriving Repr, DecidableEq

/-- The `Config` struct. -/
structure Config where
  master : String
  sentinels : List String
  sentinelTimeouts : Timeouts
  redisTimeouts : Timeouts
deriving Repr, DecidableEq

/-- `validateConfig` from `sentinel.go`. -/
def validateConfig (conf : Config) : Option String :=
  if conf.master = "" then some "master is not set"
  else if conf.sentinels.length = 0 then some "sentinel array is not set"
  else if conf.sentinelTimeouts.connect = 0 ∨ conf.sentinelTimeouts.read = 0
      ∨ conf.sentinelTimeouts.write = 0 then
    some "sentinel timeouts are not set"
  else if conf.redisTimeouts.connect = 0 then some "redis timeouts are not set"
  else none

/-- The `redis.Pool` value built by `NewPool`: the constant settings plus
the sentinel client captured by the `Dial`/`TestOnBorrow` closures. -/
structure Pool where
  maxIdle : Nat
  idleTimeoutSec : Nat
  client : Client
  master : String
deriving Repr, DecidableEq

/-- `NewPool`: validate the configuration first and fail on a
configuration error; only then construct the sentinel client and the
pool.  The model performs no network effect (it takes no `Env`), which
reflects that the Go code's network use lives entirely inside the
closures invoked later by the pool. -/
def NewPool (conf : Config) : Except String Pool :=
  match validateConfig conf with
  | some e => Except.error e
  | none =>
    let sentConn := NewClient conf.sentinels
      ["connect-timeout", "read-timeout", "write-timeout"]
    Except.ok { maxIdle := 10, idleTimeoutSec := 240,
                client := sentConn, master := conf.master }

/-- Environment for the data-node side of the pool `Dial` closure:
outcome of `redis.Dial` to a resolved address, and the `ROLE` reply on
the resulting connection. -/
structure DataEnv where
  dial : String → Option String
  roleReply : String → Except String RValue

/-- Result of the pool `Dial` closure: a usable connection to `addr`
handed to the pool, an error (no connection handed out), or a runtime
panic inside `TestRole`. -/
inductive DialResult where
  | conn (addr : String)
  | err (e : String)
  | panicked (msg : String)
deriving Repr, DecidableEq

/-- The `Dial` closure installed by `NewPool`: resolve the master
address via the sentinel client, dial it, test the role `"master"`;
each failure returns a wrapped error and no connection. -/
def poolDial (env : Env) (denv : DataEnv) (master : String) (sc : Client) :
    DialResult × Client :=
  let r := MasterAddress env sc master
  match r.1.2 with
  | some e => (DialResult.err ("sentinel: get master address: " ++ e), r.2)
  | none =>
    let masterAddr := r.1.1
    match denv.dial masterAddr with
    | some e => (DialResult.err ("dial error: " ++ e), r.2)
    | none =>
      match TestRole (denv.roleReply masterAddr) "master" with
      | GoResult.panicked m => (DialResult.panicked m, r.2)
      | GoResult.ok (some e) =>
        (DialResult.err ("dial: failed role check: " ++ e), r.2)
      | GoResult.ok none => (DialResult.conn masterAddr, r.2)

/-- Client state invariant: the connection, when present, was dialed to
`addrs[activeAddr]` with `activeAddr` at its current value, and
`activeAddr` indexes into a non-empty address list.  "At most one live
connection" is structural: `conn` is a single `Option`. -/
def Client.inv (sc : Client) : Prop :=
  (∀ a, sc.conn = some a → a = sc.activeAddr) ∧
  (sc.addrs ≠ [] → sc.activeAddr < sc.addrs.length)

/-! ### Concrete fixtures (used by witness theorems) -/

/-- Two-sentinel client as in the spec's failover example. -/
def scW : Client := NewClient ["10.0.0.1:26379", "10.0.0.2:26379"] []

/-- Every dial succeeds; every query returns the two-element master
address reply. -/
def envOkW : Env :=
  { dial := fun _ => none,
    query := fun _ =>
      Except.ok (RValue.arr [RValue.str "10.0.0.9", RValue.str "6379"]) }

/-- Every dial succeeds; every query fails, with the address index as
the error text. -/
def envFailW : Env :=
  { dial := fun _ => none, query := fun a => Except.error (toString a) }

/-- Mixed-failure environment: the first sentinel is unreachable at dial
time, and any established connection fails at the query step. -/
def envMixW : Env :=
  { dial := fun a => if a = 0 then some "connection refused" else none,
    query := fun _ => Except.error "conn-lost" }

/-- Failover example: the first sentinel times out, the second returns
the master address. -/
def envFoW : Env :=
  { dial := fun _ => none,
    query := fun a =>
      if a = 0 then Except.error "timeout"
      else Except.ok (RValue.arr [RValue.str "10.0.0.9", RValue.str "6379"]) }

/-- Data-node environment whose role query reports `master`. -/
def denvOkW : DataEnv :=
  { dial := fun _ => none,
    roleReply := fun _ => Except.ok (RValue.arr [RValue.str "master"]) }

/-- Data-node environment whose role query reports `slave`. -/
def denvBadW : DataEnv :=
  { dial := fun _ => none,
    roleReply := fun _ => Except.ok (RValue.arr [RValue.str "slave"]) }

/-- A fully-populated valid configuration. -/
def confW : Config :=
  { master := "mycluster", sentinels := ["10.0.0.1:26379"],
    sentinelTimeouts := { connect := 1, read := 1, write := 1 },
    redisTimeouts := { connect := 1, read := 1, write := 1 } }

/-! ### Helper lemmas about `doOnce` and the retry loop -/

theorem doOnce_addrs (env : Env) (sc : Client) :
    ((doOnce env sc).2).addrs = sc.addrs := by
  rcases sc with ⟨conn, options, addrs, activeAddr⟩
  cases conn with
  | none =>
    cases hd : env.dial activeAddr with
    | none => cases hq : env.query activeAddr <;> simp [doOnce, hd, hq]
    | some e => simp [doOnce, hd]
  | some a => cases hq : env.query a <;> simp [doOnce, hq]

theorem doOnce_activeAddr (env : Env) (sc : Client) :
    ((doOnce env sc).2).activeAddr = sc.activeAddr := by
  rcases sc with ⟨conn, options, addrs, activeAddr⟩
  cases conn with
  | none =>
    cases hd : env.dial activeAddr with
    | none => cases hq : env.query activeAddr <;> simp [doOnce, hd, hq]
    | some e => simp [doOnce, hd]
  | some a => cases hq : env.query a <;> simp [doOnce, hq]

theorem doOnce_options (env : Env) (sc : Client) :
    ((doOnce env sc).2).options = sc.options := by
  rcases sc with ⟨conn, options, addrs, activeAddr⟩
  cases conn with
  | none =>
    cases hd : env.dial activeAddr with
    | none => cases hq : env.query activeAddr <;> simp [doOnce, hd, hq]
    | some e => simp [doOnce, hd]
  | some a => cases hq : env.query a <;> simp [doOnce, hq]

/-- Every failed attempt leaves the client with no live connection and
all other fields unchanged. -/
theorem doOnce_fail_state (env : Env) (sc : Client) (e : String)
    (h : (doOnce env sc).1 = Except.error e) :
    (doOnce env sc).2 = { sc with conn := none } := by
  rcases sc with ⟨conn, options, addrs, activeAddr⟩
  cases conn with
  | none =>
    cases hd : env.dial activeAddr with
    | none =>
      cases hq : env.query activeAddr <;> simp_all [doOnce, hd, hq]
    | some e2 => simp_all [doOnce, hd]
  | some a => cases hq : env.query a <;> simp_all [doOnce, hq]

/-- Every successful attempt leaves a live connection. -/
theorem doOnce_ok_isSome (env : Env) (sc : Client) (v : RValue)
    (h : (doOnce env sc).1 = Except.ok v) :
    ((doOnce env sc).2).conn.isSome = true := by
  rcases sc with ⟨conn, options, addrs, activeAddr⟩
  cases conn with
  | none =>
    cases hd : env.dial activeAddr with
    | none =>
      cases hq : env.query activeAddr <;> simp_all [doOnce, hd, hq]
    | some e2 => simp_all [doOnce, hd]
  | some a => cases hq : env.query a <;> simp_all [doOnce, hq]

/-- A successful attempt on an already-live connection changes nothing. -/
theorem doOnce_ok_live (env : Env) (sc : Client) (a : Nat) (v : RValue)
    (hc : sc.conn = some a) (hq : env.query a = Except.ok v) :
    doOnce env sc = (Except.ok v, sc) := by
  unfold doOnce
  rw [hc]
  dsimp only
  rw [hq]

/-- A fresh dial plus successful query installs the connection at
`activeAddr`. -/
theorem doOnce_ok_fresh (env : Env) (sc : Client) (v : RValue)
    (hc : sc.conn = none) (hd : env.dial sc.activeAddr = none)
    (hq : env.query sc.activeAddr = Except.ok v) :
    doOnce env sc = (Except.ok v, { sc with conn := some sc.activeAddr }) := by
  unfold doOnce
  rw [hc]
  dsimp only
  rw [hd]
  dsimp only
  rw [hq]

/-- `failState` never changes the address list. -/
theorem failState_addrs (sc : Client) (k : Nat) :
    (failState sc k).addrs = sc.addrs := by
  cases k <;> rfl

/-- The attempt states of a failing run compose: the state `k` attempts
into a run started from the cleared-and-rotated client equals the state
`k + 1` attempts into the run started from the original client. -/
theorem failState_rotate (conn : Option Nat) (options addrs : List String)
    (activeAddr : Nat) (k : Nat) :
    failState ⟨none, options, addrs, (activeAddr + 1) % addrs.length⟩ k =
      failState ⟨conn, options, addrs, activeAddr⟩ (k + 1) := by
  cases k with
  | zero => rfl
  | succ j =>
    simp only [failState]
    rw [Nat.mod_add_mod]
    have harith : activeAddr + 1 + (j + 1) = activeAddr + (j + 1 + 1) := by
      omega
    rw [harith]

/-- `doOnce` preserves the client invariant. -/
theorem doOnce_inv (env : Env) (sc : Client) (h : sc.inv) :
    ((doOnce env sc).2).inv := by
  obtain ⟨hcorr, hlt⟩ := h
  rcases sc with ⟨conn, options, addrs, activeAddr⟩
  cases conn with
  | none =>
    cases hd : env.dial activeAddr with
    | none =>
      cases hq : env.query activeAddr with
      | error e =>
        have hstep : doOnce env ⟨none, options, addrs, activeAddr⟩ =
            (Except.error e, ⟨none, options, addrs, activeAddr⟩) := by
          simp [doOnce, hd, hq]
        rw [hstep]
        exact ⟨fun a ha => Option.noConfusion ha, hlt⟩
      | ok v =>
        have hstep : doOnce env ⟨none, options, addrs, activeAddr⟩ =
            (Except.ok v, ⟨some activeAddr, options, addrs, activeAddr⟩) := by
          simp [doOnce, hd, hq]
        rw [hstep]
        exact ⟨fun a ha => (Option.some.inj ha).symm, hlt⟩
    | some e =>
      have hstep : doOnce env ⟨none, options, addrs, activeAddr⟩ =
          (Except.error e, ⟨none, options, addrs, activeAddr⟩) := by
        simp [doOnce, hd]
      rw [hstep]
      exact ⟨fun a ha => Option.noConfusion ha, hlt⟩
  | some a =>
    cases hq : env.query a with
    | error e =>
      have hstep : doOnce env ⟨some a, options, addrs, activeAddr⟩ =
          (Except.error e, ⟨none, options, addrs, activeAddr⟩) := by
        simp [doOnce, hq]
      rw [hstep]
      exact ⟨fun b hb => Option.noConfusion hb, hlt⟩
    | ok v =>
      have hstep : doOnce env ⟨some a, options, addrs, activeAddr⟩ =
          (Except.ok v, ⟨some a, options, addrs, activeAddr⟩) := by
        simp [doOnce, hq]
      rw [hstep]
      exact ⟨hcorr, hlt⟩

/-- A successful attempt on a live connection: the query outcome is
determined by the connection's address. -/
theorem doOnce_ok_query_of_live (env : Env) (sc : Client) (a : Nat) (v : RValue)
    (hc : sc.conn = some a) (hok : (doOnce env sc).1 = Except.ok v) :
    env.query a = Except.ok v := by
  rcases sc with ⟨conn, options, addrs, activeAddr⟩
  dsimp only at hc
  subst hc
  cases hq : env.query a <;> simp_all [doOnce, hq]

/-- Unfolding the retry loop at a failed attempt: the connection is
cleared and `activeAddr` advances by one modulo the address count before
the next attempt; no other field changes. -/
theorem doAux_step_fail (env : Env) (sc : Client) (e : String)
    (k : Nat) (last : Except String RValue)
    (h : (doOnce env sc).1 = Except.error e) :
    doAux env (k + 1) sc last =
      (let r := doAux env k
        { sc with conn := none,
                  activeAddr := (sc.activeAddr + 1) % sc.addrs.length }
        (Except.error e);
       (r.1, r.2.1, r.2.2 + 1)) := by
  have hstate := doOnce_fail_state env sc e h
  show (match doOnce env sc with
    | (Except.error e, sc1) =>
      let sc2 := { sc1 with activeAddr := (sc1.activeAddr + 1) % sc1.addrs.length }
      let r := doAux env k sc2 (Except.error e)
      (r.1, r.2.1, r.2.2 + 1)
    | (Except.ok v, sc1) => (Except.ok v, sc1, 1)) = _
  rcases hp : doOnce env sc with ⟨res, sc1⟩
  rw [hp] at h hstate
  dsimp only at h hstate
  subst h
  subst hstate
  rfl

/-- Unfolding the retry loop at a successful attempt: the loop `break`s
at once, returning the reply with the post-attempt state untouched. -/
theorem doAux_step_ok (env : Env) (sc : Client) (v : RValue)
    (k : Nat) (last : Except String RValue)
    (h : (doOnce env sc).1 = Except.ok v) :
    doAux env (k + 1) sc last = (Except.ok v, (doOnce env sc).2, 1) := by
  show (match doOnce env sc with
    | (Except.error e, sc1) =>
      let sc2 := { sc1 with activeAddr := (sc1.activeAddr + 1) % sc1.addrs.length }
      let r := doAux env k sc2 (Except.error e)
      (r.1, r.2.1, r.2.2 + 1)
    | (Except.ok v, sc1) => (Except.ok v, sc1, 1)) = _
  rcases hp : doOnce env sc with ⟨res, sc1⟩
  rw [hp] at h
  dsimp only at h
  subst h
  rfl

/-- When every attempt fails — no matter whether at the dial step or at
the query step — the retry loop burns all its fuel: with `k + 1`
iterations left it performs exactly `k + 1` attempts, returns the error
produced by the last attempt (the attempt run from `failState sc k`),
and leaves the client with no connection and the active index advanced
`k + 1` steps modulo the address count. -/
theorem doAux_all_fail_gen (env : Env) (A : List String)
    (hfail : ∀ sc2 : Client, sc2.addrs = A →
      ∃ e, (doOnce env sc2).1 = Except.error e) :
    ∀ (k : Nat) (sc : Client) (last : Except String RValue), sc.addrs = A →
      doAux env (k + 1) sc last =
        ((doOnce env (failState sc k)).1,
         { sc with conn := none,
                   activeAddr := (sc.activeAddr + (k + 1)) % sc.addrs.length },
         k + 1) := by
  intro k
  induction k with
  | zero =>
    intro sc last hA
    obtain ⟨e, he⟩ := hfail sc hA
    rw [doAux_step_fail env sc e 0 last he]
    dsimp only [doAux]
    rw [show failState sc 0 = sc from rfl, he]
  | succ k ih =>
    intro sc last hA
    obtain ⟨e, he⟩ := hfail sc hA
    rw [doAux_step_fail env sc e (k + 1) last he]
    dsimp only
    rcases sc with ⟨conn, options, addrs, activeAddr⟩
    dsimp only at *
    rw [ih ⟨none, options, addrs, (activeAddr + 1) % addrs.length⟩
      (Except.error e) hA]
    dsimp only
    rw [failState_rotate conn options addrs activeAddr k]
    have harith : ((activeAddr + 1) % addrs.length + (k + 1)) % addrs.length =
        (activeAddr + (k + 1 + 1)) % addrs.length := by
      rw [Nat.mod_add_mod]
      congr 1
      omega
    rw [harith]

/-- The retry loop preserves the client invariant. -/
theorem doAux_inv (env : Env) :
    ∀ (k : Nat) (sc : Client) (last : Except String RValue), sc.inv →
      ((doAux env k sc last).2.1).inv := by
  intro k
  induction k with
  | zero => intro sc last h; exact h
  | succ k ih =>
    intro sc last h
    rcases hr : (doOnce env sc).1 with e | v
    · rw [doAux_step_fail env sc e k last hr]
      dsimp only
      apply ih
      have hlt := (doOnce_inv env sc h).2
      constructor
      · intro a ha
        cases ha
      · intro hne
        dsimp only
        exact Nat.mod_lt _ (List.length_pos.mpr hne)
    · rw [doAux_step_ok env sc v k last hr]
      exact doOnce_inv env sc h

/-! ### Claim theorems -/

/-- C1: In the retry loop of `Client.do`, whenever an attempt succeeds
the iteration stops immediately (the loop exits after exactly that
attempt, with no further query), the live connection is kept and
`activeAddr` is unchanged, so a subsequent call reuses the same
monitor; in particular, for every monitor address list, a successful
first attempt makes `Client.do` issue exactly one query. -/
theorem C1_success_sticky (env : Env) (sc : Client) (v : RValue)
    (hok : (doOnce env sc).1 = Except.ok v) :
    (∀ (k : Nat) (last : Except String RValue),
      doAux env (k + 1) sc last = (Except.ok v, (doOnce env sc).2, 1)) ∧
    ((doOnce env sc).2).activeAddr = sc.activeAddr ∧
    ((doOnce env sc).2).conn.isSome = true ∧
    (∀ a, sc.conn = some a → (doOnce env sc).2 = sc) ∧
    (sc.addrs ≠ [] → doCmd env sc = (Except.ok v, (doOnce env sc).2, 1)) := by
  refine ⟨fun k last => doAux_step_ok env sc v k last hok,
    doOnce_activeAddr env sc, doOnce_ok_isSome env sc v hok, ?_, ?_⟩
  · intro a ha
    have hq := doOnce_ok_query_of_live env sc a v ha hok
    rw [doOnce_ok_live env sc a v ha hq]
  · intro hne
    obtain ⟨m, hm⟩ : ∃ m, sc.addrs.length = m + 1 :=
      ⟨sc.addrs.length - 1, by have := List.length_pos.mpr hne; omega⟩
    unfold doCmd
    rw [hm]
    exact doAux_step_ok env sc v m _ hok

/-- C1 witness: with two sentinels and an environment whose first query
succeeds, `Client.do` issues exactly one query and keeps the state. -/
theorem C1_witness :
    (∀ (k : Nat) (last : Except String RValue),
      doAux envOkW (k + 1) scW last =
        (Except.ok (RValue.arr [RValue.str "10.0.0.9", RValue.str "6379"]),
         (doOnce envOkW scW).2, 1)) ∧
    ((doOnce envOkW scW).2).activeAddr = scW.activeAddr ∧
    ((doOnce envOkW scW).2).conn.isSome = true ∧
    (∀ a, scW.conn = some a → (doOnce envOkW scW).2 = scW) ∧
    (scW.addrs ≠ [] → doCmd envOkW scW =
      (Except.ok (RValue.arr [RValue.str "10.0.0.9", RValue.str "6379"]),
       (doOnce envOkW scW).2, 1)) :=
  C1_success_sticky envOkW scW
    (RValue.arr [RValue.str "10.0.0.9", RValue.str "6379"]) rfl

/-- C5: on any failed attempt (dial error, I/O error or protocol/decode
error alike, all of which surface as `Except.error`), the live
connection is closed and cleared and `activeAddr` is advanced to
`(activeAddr + 1) % len(addrs)` before the next attempt; the address
list and dial options are untouched, as the record update shows. -/
theorem C5_failure_rotates (env : Env) (sc : Client) (e : String)
    (k : Nat) (last : Except String RValue)
    (hfail : (doOnce env sc).1 = Except.error e) :
    (doOnce env sc).2 = { sc with conn := none } ∧
    doAux env (k + 1) sc last =
      (let r := doAux env k
        { sc with conn := none,
                  activeAddr := (sc.activeAddr + 1) % sc.addrs.length }
        (Except.error e);
       (r.1, r.2.1, r.2.2 + 1)) :=
  ⟨doOnce_fail_state env sc e hfail, doAux_step_fail env sc e k last hfail⟩

/-- C5 witness: the all-failing environment at the two-sentinel client,
first attempt of the loop. -/
theorem C5_witness :
    (doOnce envFailW scW).2 = { scW with conn := none } ∧
    doAux envFailW (1 + 1) scW (Except.ok RValue.nil) =
      (let r := doAux envFailW 1
        { scW with conn := none,
                   activeAddr := (scW.activeAddr + 1) % scW.addrs.length }
        (Except.error "0");
       (r.1, r.2.1, r.2.2 + 1)) :=
  C5_failure_rotates envFailW scW "0" 1 (Except.ok RValue.nil) rfl

/-- C3: if every one of the `n` configured monitors fails — in any mode:
dial failure (monitor unreachable), I/O error or protocol/decode error
at the query step, expressed by the hypothesis that every attempt (every
`doOnce` over the same address list, from any connection state) returns
an error — then `Client.do` (the loop behind `resolve`/`MasterAddress`)
performs exactly `n` attempts, no more, no fewer, and returns precisely
the error produced by the last attempt (the attempt run from
`failState sc (n - 1)`, the state after `n - 1` rotations); the errors
of the earlier attempts do not appear in the result, and the surfaced
value is indeed an error. -/
theorem C3_all_fail_last_error (env : Env) (sc : Client)
    (hfail : ∀ sc2 : Client, sc2.addrs = sc.addrs →
      ∃ e, (doOnce env sc2).1 = Except.error e)
    (hne : sc.addrs ≠ []) (hinv : sc.inv) :
    doCmd env sc =
      ((doOnce env (failState sc (sc.addrs.length - 1))).1,
       { sc with conn := none },
       sc.addrs.length) ∧
    ∃ e, (doOnce env (failState sc (sc.addrs.length - 1))).1 =
      Except.error e := by
  have hlt := hinv.2 hne
  obtain ⟨m, hm⟩ : ∃ m, sc.addrs.length = m + 1 :=
    ⟨sc.addrs.length - 1, by have := List.length_pos.mpr hne; omega⟩
  constructor
  · unfold doCmd
    conv_lhs => rw [hm]
    rw [doAux_all_fail_gen env sc.addrs hfail m sc (Except.ok RValue.nil) rfl]
    have e1 : sc.addrs.length - 1 = m := by omega
    rw [e1]
    have e2 : (sc.activeAddr + (m + 1)) % sc.addrs.length = sc.activeAddr := by
      rw [hm, Nat.add_mod_right]
      exact Nat.mod_eq_of_lt (hm ▸ hlt)
    rw [e2, hm]
  · exact hfail (failState sc (sc.addrs.length - 1))
      (failState_addrs sc (sc.addrs.length - 1))

/-- C3 witness: with the two-sentinel client, the first monitor fails at
the dial step and the second at the query step; exactly two attempts
happen and the second attempt's error surfaces. -/
theorem C3_witness :
    doCmd envMixW scW =
      ((doOnce envMixW (failState scW (scW.addrs.length - 1))).1,
       { scW with conn := none },
       scW.addrs.length) ∧
    ∃ e, (doOnce envMixW (failState scW (scW.addrs.length - 1))).1 =
      Except.error e :=
  C3_all_fail_last_error envMixW scW
    (by
      intro sc2 _
      rcases hc : sc2.conn with _ | a
      · by_cases h0 : sc2.activeAddr = 0
        · exact ⟨"connection refused", by simp [doOnce, hc, envMixW, h0]⟩
        · exact ⟨"conn-lost", by simp [doOnce, hc, envMixW, h0]⟩
      · exact ⟨"conn-lost", by simp [doOnce, hc, envMixW]⟩)
    (by decide)
    ⟨fun _ ha => Option.noConfusion ha, fun _ => by decide⟩

/-- C4: for a non-empty monitor list, if the attempt against monitor `i`
(the current active address) fails and the attempt against monitor
`(i + 1) mod n` succeeds with reply `[host, port]`, then `MasterAddress`
returns the string `host:port` with no error and leaves `activeAddr` at
`(i + 1) mod n`, with the live connection pointing there. -/
theorem C4_failover_next (env : Env) (sc : Client) (name h p e : String)
    (hinv : sc.inv) (hne : sc.addrs ≠ [])
    (hfail : (doOnce env sc).1 = Except.error e)
    (hdial : env.dial ((sc.activeAddr + 1) % sc.addrs.length) = none)
    (hquery : env.query ((sc.activeAddr + 1) % sc.addrs.length) =
      Except.ok (RValue.arr [RValue.str h, RValue.str p])) :
    MasterAddress env sc name =
      ((h ++ ":" ++ p, none),
       { sc with conn := some ((sc.activeAddr + 1) % sc.addrs.length),
                 activeAddr := (sc.activeAddr + 1) % sc.addrs.length }) := by
  obtain ⟨hcorr, hltf⟩ := hinv
  have hlt := hltf hne
  rcases Nat.lt_or_ge sc.addrs.length 2 with h2 | h2
  · exfalso
    have h1 : sc.addrs.length = 1 := by omega
    have hidx : (sc.activeAddr + 1) % sc.addrs.length = sc.activeAddr := by
      have ha0 : sc.activeAddr = 0 := by omega
      rw [h1, ha0]
    rw [hidx] at hdial hquery
    rcases hc : sc.conn with _ | a
    · have hok := doOnce_ok_fresh env sc _ hc hdial hquery
      rw [hok] at hfail
      exact absurd hfail (by simp)
    · have haa := hcorr a hc
      subst haa
      have hok := doOnce_ok_live env sc _ _ hc hquery
      rw [hok] at hfail
      exact absurd hfail (by simp)
  · obtain ⟨m, hm⟩ : ∃ m, sc.addrs.length = m + 2 :=
      ⟨sc.addrs.length - 2, by omega⟩
    have hstep1 := doAux_step_fail env sc e (m + 1) (Except.ok RValue.nil) hfail
    set sc2 : Client :=
      { sc with conn := none,
                activeAddr := (sc.activeAddr + 1) % sc.addrs.length } with hsc2
    have hc2 : sc2.conn = none := rfl
    have hstep2 := doOnce_ok_fresh env sc2
      (RValue.arr [RValue.str h, RValue.str p]) hc2 hdial hquery
    have h1' : (doOnce env sc2).1 =
        Except.ok (RValue.arr [RValue.str h, RValue.str p]) := by rw [hstep2]
    have hstep3 := doAux_step_ok env sc2
      (RValue.arr [RValue.str h, RValue.str p]) m (Except.error e) h1'
    have hrun : doCmd env sc =
        (Except.ok (RValue.arr [RValue.str h, RValue.str p]),
         { sc with conn := some ((sc.activeAddr + 1) % sc.addrs.length),
                   activeAddr := (sc.activeAddr + 1) % sc.addrs.length },
         2) := by
      unfold doCmd
      conv_lhs => rw [show sc.addrs.length = (m + 1) + 1 from by omega]
      rw [hstep1]
      dsimp only
      rw [hstep3, hstep2]
    unfold MasterAddress
    rw [hrun]
    rfl

/-- C4 witness: the spec's example with two monitors where the first
times out and the second replies with host and port. -/
theorem C4_witness :
    MasterAddress envFoW scW "mycluster" =
      (("10.0.0.9:6379", none),
       { scW with conn := some ((scW.activeAddr + 1) % scW.addrs.length),
                  activeAddr := (scW.activeAddr + 1) % scW.addrs.length }) :=
  C4_failover_next envFoW scW "mycluster" "10.0.0.9" "6379" "timeout"
    ⟨fun _ ha => Option.noConfusion ha, fun _ => by decide⟩
    (by decide) rfl rfl rfl

/-- C2: `NewPool` validates the configuration before constructing the
client (the model of `NewPool` performs no network effect at all: it
takes no environment): it fails exactly when the master name is empty,
the sentinel list is empty, one of the three sentinel timeouts is zero,
or the data-node connect timeout is zero; otherwise it returns a pool. -/
theorem C2_newpool_validates (conf : Config) :
    ((∃ e, NewPool conf = Except.error e) ↔
      (conf.master = "" ∨ conf.sentinels = [] ∨
       conf.sentinelTimeouts.connect = 0 ∨ conf.sentinelTimeouts.read = 0 ∨
       conf.sentinelTimeouts.write = 0 ∨ conf.redisTimeouts.connect = 0)) ∧
    (¬(conf.master = "" ∨ conf.sentinels = [] ∨
       conf.sentinelTimeouts.connect = 0 ∨ conf.sentinelTimeouts.read = 0 ∨
       conf.sentinelTimeouts.write = 0 ∨ conf.redisTimeouts.connect = 0) →
      ∃ pool, NewPool conf = Except.ok pool) := by
  unfold NewPool validateConfig
  split_ifs with h1 h2 h3 h4 <;> simp_all [List.length_eq_zero] <;> tauto

/-- C2 witness: a fully-populated configuration yields a pool. -/
theorem C2_witness : ∃ pool, NewPool confW = Except.ok pool :=
  (C2_newpool_validates confW).2 (by decide)

/-- C6: `TestRole` succeeds (returns a nil error) iff the decoded reply
has a first element that decodes to exactly the expected role string
(string comparison in the code is case-sensitive); a `Values` decode
failure or query error, a `String` decode failure of the first element,
and any other role string each yield a returned failure. -/
theorem C6_testrole_iff (d : Except String RValue) (exp : String) :
    (TestRole d exp = GoResult.ok none ↔
      ∃ r rest, redisValues d = Except.ok (r :: rest) ∧
        redisString r = Except.ok exp) ∧
    (∀ e, redisValues d = Except.error e →
      TestRole d exp = GoResult.ok (some e)) ∧
    (∀ r rest e, redisValues d = Except.ok (r :: rest) →
      redisString r = Except.error e →
      TestRole d exp = GoResult.ok (some e)) ∧
    (∀ r rest s, redisValues d = Except.ok (r :: rest) →
      redisString r = Except.ok s → s ≠ exp →
      TestRole d exp = GoResult.ok (some "role check failed")) := by
  refine ⟨⟨?_, ?_⟩, ?_, ?_, ?_⟩
  · intro hsucc
    rcases hv : redisValues d with e | res
    · simp [TestRole, hv] at hsucc
    · rcases res with _ | ⟨r, rest⟩
      · simp [TestRole, hv] at hsucc
      · rcases hs : redisString r with e | role
        · simp [TestRole, hv, hs] at hsucc
        · refine ⟨r, rest, rfl, ?_⟩
          by_cases hr : role = exp
          · rw [hs, hr]
          · simp [TestRole, hv, hs, hr] at hsucc
  · rintro ⟨r, rest, hv, hs⟩
    simp [TestRole, hv, hs]
  · intro e hv
    simp [TestRole, hv]
  · intro r rest e hv hs
    simp [TestRole, hv, hs]
  · intro r rest s hv hs hne
    simp [TestRole, hv, hs, hne]

/-- C6 witness: a reply whose first element is `"slave"` fails the
`"master"` check with the role-mismatch error. -/
theorem C6_witness :
    TestRole (Except.ok (RValue.arr [RValue.str "slave"])) "master" =
      GoResult.ok (some "role check failed") :=
  (C6_testrole_iff (Except.ok (RValue.arr [RValue.str "slave"]))
    "master").2.2.2 (RValue.str "slave") [] "slave" rfl rfl (by decide)

/-- C7: the pool `Dial` callback hands a usable connection to the pool
only when address resolution, the data-node dial and the `"master"`
role check all succeed, in that order; and a role-check failure after a
successful dial produces an error result, so no connection object
reaches the pool. -/
theorem C7_dial_pipeline (env : Env) (denv : DataEnv) (master : String)
    (sc : Client) :
    (∀ addr, (poolDial env denv master sc).1 = DialResult.conn addr →
      (MasterAddress env sc master).1.2 = none ∧
      (MasterAddress env sc master).1.1 = addr ∧
      denv.dial addr = none ∧
      TestRole (denv.roleReply addr) "master" = GoResult.ok none) ∧
    (∀ e, (MasterAddress env sc master).1.2 = none →
      denv.dial (MasterAddress env sc master).1.1 = none →
      TestRole (denv.roleReply (MasterAddress env sc master).1.1) "master" =
        GoResult.ok (some e) →
      (poolDial env denv master sc).1 =
        DialResult.err ("dial: failed role check: " ++ e)) := by
  rcases hm : MasterAddress env sc master with ⟨⟨maddr, merr⟩, sc1⟩
  constructor
  · intro addr hconn
    rcases merr with _ | e
    · rcases hd : denv.dial maddr with _ | e2
      · cases ht : TestRole (denv.roleReply maddr) "master" with
        | ok o =>
          cases o with
          | none =>
            have haddr : maddr = addr := by
              simpa [poolDial, hm, hd, ht] using hconn
            subst haddr
            exact ⟨by simp [hm], by simp [hm], hd, ht⟩
          | some e3 =>
            exact absurd hconn (by simp [poolDial, hm, hd, ht])
        | panicked msg =>
          exact absurd hconn (by simp [poolDial, hm, hd, ht])
      · exact absurd hconn (by simp [poolDial, hm, hd])
    · exact absurd hconn (by simp [poolDial, hm])
  · intro e hres hd ht
    have hmerr : merr = none := by simpa [hm] using hres
    subst hmerr
    have hd2 : denv.dial maddr = none := by simpa [hm] using hd
    have ht2 : TestRole (denv.roleReply maddr) "master" =
        GoResult.ok (some e) := by simpa [hm] using ht
    simp [poolDial, hm, hd2, ht2]

/-- C7 witness: resolution and dial succeed but the node reports
`slave`, so the `Dial` callback returns a wrapped role-check error. -/
theorem C7_witness :
    (poolDial envOkW denvBadW "mycluster" scW).1 =
      DialResult.err ("dial: failed role check: " ++ "role check failed") :=
  (C7_dial_pipeline envOkW denvBadW "mycluster" scW).2
    "role check failed" rfl rfl rfl

/-- C8: when the query succeeds with a 2-element reply `[host, port]`,
`MasterAddress` returns them joined into the single string `host:port`
and a nil error, alongside the final client state of the retry loop. -/
theorem C8_join_host_port (env : Env) (sc : Client) (name h p : String)
    (hok : (doCmd env sc).1 =
      Except.ok (RValue.arr [RValue.str h, RValue.str p])) :
    MasterAddress env sc name = ((h ++ ":" ++ p, none), (doCmd env sc).2.1) := by
  rcases hr : doCmd env sc with ⟨res, sc1, cnt⟩
  rw [hr] at hok
  dsimp only at hok
  subst hok
  unfold MasterAddress
  rw [hr]
  rfl

/-- C8 witness: the two-element host/port reply is joined with `":"`. -/
theorem C8_witness :
    MasterAddress envOkW scW "mycluster" =
      (("10.0.0.9" ++ ":" ++ "6379", none), (doCmd envOkW scW).2.1) :=
  C8_join_host_port envOkW scW "mycluster" "10.0.0.9" "6379" rfl

/-- C9: the operations of the client preserve the invariant that the
live connection, when present, was dialed to `addrs[activeAddr]` with
`activeAddr` at its current value (at most one live connection exists
structurally, `conn` being a single `Option` slot); and `close` is
idempotent. -/
theorem C9_invariant_preserved (env : Env) (sc : Client) (name : String)
    (hinv : sc.inv) :
    ((doCmd env sc).2.1).inv ∧
    ((MasterAddress env sc name).2).inv ∧
    (close sc).inv ∧
    close (close sc) = close sc := by
  have h1 : ((doCmd env sc).2.1).inv :=
    doAux_inv env sc.addrs.length sc (Except.ok RValue.nil) hinv
  exact ⟨h1, h1, ⟨fun _ ha => Option.noConfusion ha, hinv.2⟩, rfl⟩

/-- C9 witness: the invariant holds after a resolution call on the
two-sentinel client, and `close` twice equals `close` once. -/
theorem C9_witness :
    ((doCmd envOkW scW).2.1).inv ∧
    ((MasterAddress envOkW scW "mycluster").2).inv ∧
    (close scW).inv ∧
    close (close scW) = close scW :=
  C9_invariant_preserved envOkW scW "mycluster"
    ⟨fun _ ha => Option.noConfusion ha, fun _ => by decide⟩

/-- C10: `TestRole` indexes `res[0]` without a length check, so a reply
that decodes (via `redis.Values`) to an empty array makes the index
access panic at runtime instead of returning an error. -/
theorem C10_empty_reply_panics (d : Except String RValue) (exp : String)
    (hv : redisValues d = Except.ok []) :
    TestRole d exp = GoResult.panicked "runtime error: index out of range" := by
  simp [TestRole, hv]

/-- C10 witness: the concrete empty-array reply panics. -/
theorem C10_witness :
    TestRole (Except.ok (RValue.arr [])) "master" =
      GoResult.panicked "runtime error: index out of range" :=
  C10_empty_reply_panics (Except.ok (RValue.arr [])) "master" rfl

end Sentinel
